import Mathlib

/-!
Shallow embedding of `src/http_server.py` (a minimal socket HTTP server).

Bytes that the Python code handles as `str`/`bytes` are modelled as Lean
`String`s (one `Char` per byte for the ASCII data the server deals in).
Python exceptions are modelled by the `PyExc` error type together with
`Except`.  The filesystem (`open`, `os.listdir`) and the media-type lookup
(`mimetypes.guess_type`) are external collaborators, modelled as function
parameters.
-/

namespace HttpServer

/-- The Python exceptions distinguished by the connection handler:
`NotImplementedError` (raised by `parse_request`), `NameError` (raised by
`resolve_uri` on a missing path), and every other exception (for example the
`AttributeError` from `None.encode()` when `mimetypes.guess_type` finds no
type), which the handler's bare `except Exception` branch catches. -/
inductive PyExc where
  | notImplementedError
  | nameError
  | otherError
deriving DecidableEq

deriving instance DecidableEq for Except

/-- The whitespace characters recognised by Python's `str.split()` with no
separator argument, restricted to the ASCII range the server deals in. -/
def isPySpace (c : Char) : Bool :=
  c = ' ' || c = '\t' || c = '\n' || c = '\r' || c = '\x0b' || c = '\x0c'

/-- Tokenizer behind Python's `str.split()` (no separator): split on runs of
whitespace and drop empty tokens.  `acc` holds the characters of the token
currently being read, in reverse. -/
def pyTokensAux : List Char → List Char → List String
  | [], acc => if acc.isEmpty then [] else [⟨acc.reverse⟩]
  | c :: cs, acc =>
    if isPySpace c then
      if acc.isEmpty then pyTokensAux cs []
      else (⟨acc.reverse⟩ : String) :: pyTokensAux cs []
    else pyTokensAux cs (c :: acc)

/-- Python's `s.split()` with no argument. -/
def pySplit (s : String) : List String := pyTokensAux s.data []

/-- The characters of `l` that precede the first occurrence of the literal
three-character sequence `\r|\n`; all of `l` if it never occurs. -/
def splitBarAux : List Char → List Char
  | [] => []
  | c :: cs =>
    if c = '\r' ∧ cs.take 2 = ['|', '\n'] then [] else c :: splitBarAux cs

/-- Python's `request.split('\r|\n')[0]`: `str.split` with the LITERAL string
argument `'\r|\n'` (not a regular expression), so element 0 is the part of
the request before the first occurrence of the three characters
carriage-return, vertical bar, line-feed — normally the whole request. -/
def splitBarFirst (s : String) : String := ⟨splitBarAux s.data⟩

/-- The characters of `l` that precede the first `\r\n`. -/
def firstLineAux : List Char → List Char
  | [] => []
  | c :: cs =>
    if c = '\r' ∧ cs.take 1 = ['\n'] then [] else c :: firstLineAux cs

/-- The request line of a raw request: the text before the first `\r\n`
(the whole request if it has no line break). -/
def requestLine (s : String) : String := ⟨firstLineAux s.data⟩

/-- `parse_request` from `src/http_server.py`: tokenize
`request.split('\r|\n')[0]` with `str.split()`, require at least 3 tokens,
require the first to be `GET` and the third to be `HTTP/1.1`, and return the
second (the uri).  Failures raise `NotImplementedError`. -/
def parse_request (request : String) : Except PyExc String :=
  match pySplit (splitBarFirst request) with
  | command :: uri :: version :: _ =>
    if command ≠ "GET" then .error .notImplementedError
    else if version ≠ "HTTP/1.1" then .error .notImplementedError
    else .ok uri
  | _ => .error .notImplementedError

/-- `response_ok` from `src/http_server.py`. -/
def response_ok (body : String) (mimetype : String) : String :=
  "HTTP/1.1 200 OK\r\nContent-Type: " ++ mimetype ++ "\r\n\r\n" ++ body

/-- `response_method_not_allowed` from `src/http_server.py`. -/
def response_method_not_allowed : String := "HTTP/1.1 405 Method Not Allowed\r\n\r\n"

/-- `response_not_found` from `src/http_server.py`. -/
def response_not_found : String := "HTTP/1.1 404 Not Found\r\n\r\n"

/-- A filesystem entry: a regular file with its byte content, or a directory
with the list of immediate entry names that `os.listdir` returns. -/
inductive FsEntry where
  | file (content : String)
  | dir (entries : List String)
deriving DecidableEq

/-- `resolve_uri` from `src/http_server.py`, with the filesystem `fs` and the
media-type lookup `guess_type` (for `mimetypes.guess_type(path)[0]`) passed
as collaborators.  `open(path, "rb")` raises `FileNotFoundError` on a missing
path (re-raised as `NameError`) and `IsADirectoryError` on a directory (the
listing branch); on a regular file, a `None` media type makes
`None.encode()` raise `AttributeError`, modelled as `otherError`. -/
def resolve_uri (fs : String → Option FsEntry) (guess_type : String → Option String)
    (uri : String) : Except PyExc (String × String) :=
  let path := "webroot" ++ uri
  match fs path with
  | some (.file content) =>
    match guess_type path with
    | some mime_type => .ok (content, mime_type)
    | none => .error .otherError
  | some (.dir entries) => .ok (String.intercalate "\n" entries, "text/plain")
  | none => .error .nameError

/-- The body of the inner `try` of `server` (lines 152–155): parse, resolve,
build the 200 response; the first exception aborts the sequence. -/
def handle_request (fs : String → Option FsEntry) (guess_type : String → Option String)
    (data : String) : Except PyExc String :=
  match parse_request data with
  | .error e => .error e
  | .ok uri =>
    match resolve_uri fs guess_type uri with
    | .error e => .error e
    | .ok (content, mime_type) => .ok (response_ok content mime_type)

/-- The dispatch of `server` for one connection with non-empty data
(lines 151–165): `NotImplementedError` selects the 405 response, `NameError`
the 404 response, both then sent with `sendall`; any other exception sends
nothing (`none`), which in the code is the `break` out of the accept loop. -/
def dispatch (fs : String → Option FsEntry) (guess_type : String → Option String)
    (data : String) : Option String :=
  match handle_request fs guess_type data with
  | .ok r => some r
  | .error .notImplementedError => some response_method_not_allowed
  | .error .nameError => some response_not_found
  | .error .otherError => none

/-- The accept loop of `server` (lines 135–174) over a list of connections,
each already reduced to its received data.  Per the code, empty data hits the
`else: break` (line 170) and an unclassified exception hits the
`except Exception: break` (line 163); both `break`s leave the accept loop, so
later connections are never accepted.  The result lists, per handled
connection, the response sent (`none` when the connection was closed without
a response). -/
def acceptLoop (fs : String → Option FsEntry) (guess_type : String → Option String) :
    List String → List (Option String)
  | [] => []
  | data :: rest =>
    if data = "" then [none]
    else
      match dispatch fs guess_type data with
      | some r => some r :: acceptLoop fs guess_type rest
      | none => [none]

/-- Does the buffer contain the header terminator `\r\n\r\n`? -/
def hasTerminatorAux : List Char → Bool
  | [] => false
  | c :: cs =>
    if c = '\r' ∧ cs.take 3 = ['\n', '\r', '\n'] then true else hasTerminatorAux cs

/-- Python's `'\r\n\r\n' in data`. -/
def hasTerminator (s : String) : Bool := hasTerminatorAux s.data

/-- The read loop of `server` (lines 141–147), fuel-bounded.  `chunks` is the
sequence of values successive `conn.recv(4096)` calls return; once the peer
has closed, every further `recv` returns the empty string, modelled by
`List.headD _ ""`.  The loop body appends the chunk to the buffer and stops
only when `\r\n\r\n` is in the buffer — the code has no check for a
zero-length read.  `none` means the loop is still running when the fuel runs
out. -/
def readRequestAux : Nat → List String → String → Option String
  | 0, _, _ => none
  | fuel + 1, chunks, data =>
    let data1 := data ++ chunks.headD ""
    if hasTerminator data1 then some data1
    else readRequestAux fuel chunks.tail data1

/-- Demo filesystem: `webroot/x.bin` is a file whose type the media-type
lookup does not know; `webroot/a.html` is an ordinary html file. -/
def fsDemo : String → Option FsEntry := fun p =>
  if p = "webroot/x.bin" then some (.file "xx")
  else if p = "webroot/a.html" then some (.file "<h1>hi</h1>")
  else none

/-- Demo media-type lookup: knows `webroot/a.html`, not `webroot/x.bin`. -/
def guessDemo : String → Option String := fun p =>
  if p = "webroot/a.html" then some "text/html" else none

/-- C1 (counterexample): the request line `GET /` has only 2 whitespace
tokens, yet `parse_request` does not raise: `split('\r|\n')` splits on a
literal string, not on line breaks, so the tokens of the header line
`HTTP/1.1 extra` leak into the request-line tokens and parsing returns `/`. -/
theorem parse_request_short_line_accepted :
    requestLine "GET /\r\nHTTP/1.1 extra\r\n\r\n" = "GET /" ∧
    (pySplit "GET /").length = 2 ∧
    parse_request "GET /\r\nHTTP/1.1 extra\r\n\r\n" = .ok "/" := by decide

/-- C2 (counterexample): two raw requests with the same request line
`GET /` but different header sections parse to different outcomes: with no
headers the parse raises `NotImplementedError`, while with the header line
`HTTP/1.1 x` it succeeds, because header tokens leak into the tokenization. -/
theorem parse_request_headers_affect_outcome :
    requestLine "GET /\r\n\r\n" = "GET /" ∧
    requestLine "GET /\r\nHTTP/1.1 x\r\n\r\n" = "GET /" ∧
    parse_request "GET /\r\n\r\n" = .error .notImplementedError ∧
    parse_request "GET /\r\nHTTP/1.1 x\r\n\r\n" = .ok "/" := by decide

/-- C8 (counterexample): a raw request whose request line is empty (so its
method token is empty/missing, not `GET`) parses successfully and the
handler serves it (here a 404, not the 405 the claim requires), because the
tokens of the `GET / HTTP/1.1` header line leak into the tokenization. -/
theorem parse_request_empty_method_accepted :
    requestLine "\r\nGET / HTTP/1.1\r\n\r\n" = "" ∧
    parse_request "\r\nGET / HTTP/1.1\r\n\r\n" = .ok "/" ∧
    dispatch (fun _ => none) (fun _ => none) "\r\nGET / HTTP/1.1\r\n\r\n" =
      some response_not_found ∧
    response_not_found ≠ response_method_not_allowed := by decide

/-- C3 (counterexample): one connection whose handling hits the
`except Exception` branch (file exists, media type unknown) makes the accept
loop stop: `acceptLoop` on that connection followed by a perfectly good one
handles only the first (closing it without a response) and never services
the second, even though dispatching the second alone would produce a 200. -/
theorem acceptLoop_dies_on_unclassified :
    dispatch fsDemo guessDemo "GET /x.bin HTTP/1.1\r\n\r\n" = none ∧
    dispatch fsDemo guessDemo "GET /a.html HTTP/1.1\r\n\r\n" =
      some "HTTP/1.1 200 OK\r\nContent-Type: text/html\r\n\r\n<h1>hi</h1>" ∧
    acceptLoop fsDemo guessDemo
      ["GET /x.bin HTTP/1.1\r\n\r\n", "GET /a.html HTTP/1.1\r\n\r\n"] =
      [none] := by decide

/-- C4 (counterexample): a peer that closes after sending zero bytes makes
`recv` return the empty string forever; the read loop checks only for
`\r\n\r\n` in the buffer, so it never terminates, however much fuel it is
given. -/
theorem readRequest_spins_on_silent_close (fuel : Nat) :
    readRequestAux fuel [] "" = none := by
  induction fuel with
  | zero => rfl
  | succ k ih => simpa [readRequestAux, hasTerminator, hasTerminatorAux] using ih

/-- C5: a parsed GET whose target resolves to a non-existent path makes
`resolve_uri` raise `NameError`, and the handler sends the 404 response,
whose bytes are the status line `HTTP/1.1 404 Not Found` followed by a blank
line and no body. -/
theorem dispatch_missing_path_404 (fs : String → Option FsEntry)
    (guess_type : String → Option String) (data uri : String)
    (hp : parse_request data = .ok uri)
    (hfs : fs ("webroot" ++ uri) = none) :
    resolve_uri fs guess_type uri = .error .nameError ∧
    dispatch fs guess_type data = some response_not_found ∧
    response_not_found = "HTTP/1.1 404 Not Found\r\n\r\n" := by
  have h1 : resolve_uri fs guess_type uri = .error .nameError := by
    simp [resolve_uri, hfs]
  exact ⟨h1, by simp [dispatch, handle_request, hp, h1], rfl⟩

theorem dispatch_missing_path_404_witness :
    resolve_uri (fun _ => none) (fun _ => none) "/nope.html" = .error .nameError ∧
    dispatch (fun _ => none) (fun _ => none) "GET /nope.html HTTP/1.1\r\n\r\n" =
      some response_not_found ∧
    response_not_found = "HTTP/1.1 404 Not Found\r\n\r\n" :=
  dispatch_missing_path_404 (fun _ => none) (fun _ => none)
    "GET /nope.html HTTP/1.1\r\n\r\n" "/nope.html" (by decide) rfl

/-- C6: a valid GET for an existing regular file is answered with status
200, a `Content-Type` equal to the media-type lookup's answer for the path,
and a body equal to the file's exact content. -/
theorem dispatch_existing_file_200 (fs : String → Option FsEntry)
    (guess_type : String → Option String) (data uri content mime_type : String)
    (hp : parse_request data = .ok uri)
    (hfs : fs ("webroot" ++ uri) = some (.file content))
    (hmt : guess_type ("webroot" ++ uri) = some mime_type) :
    dispatch fs guess_type data =
      some ("HTTP/1.1 200 OK\r\nContent-Type: " ++ mime_type ++ "\r\n\r\n" ++ content) := by
  have h1 : resolve_uri fs guess_type uri = .ok (content, mime_type) := by
    simp [resolve_uri, hfs, hmt]
  simp [dispatch, handle_request, hp, h1, response_ok]

theorem dispatch_existing_file_200_witness :
    dispatch fsDemo guessDemo "GET /a.html HTTP/1.1\r\n\r\n" =
      some ("HTTP/1.1 200 OK\r\nContent-Type: " ++ "text/html" ++ "\r\n\r\n" ++ "<h1>hi</h1>") :=
  dispatch_existing_file_200 fsDemo guessDemo "GET /a.html HTTP/1.1\r\n\r\n"
    "/a.html" "<h1>hi</h1>" "text/html" (by decide) (by decide) (by decide)

/-- The 200 builder at media type `text/plain`, with the literals fused. -/
theorem response_ok_text_plain (body : String) :
    response_ok body "text/plain" =
      "HTTP/1.1 200 OK\r\nContent-Type: text/plain\r\n\r\n" ++ body :=
  congrArg (fun s => s ++ body) (by decide)

/-- C7: a valid GET for an existing directory is answered with status 200,
`Content-Type: text/plain`, and a body that newline-joins the entry names
the directory-listing collaborator returns. -/
theorem dispatch_existing_dir_200 (fs : String → Option FsEntry)
    (guess_type : String → Option String) (data uri : String)
    (entries : List String)
    (hp : parse_request data = .ok uri)
    (hfs : fs ("webroot" ++ uri) = some (.dir entries)) :
    dispatch fs guess_type data =
      some ("HTTP/1.1 200 OK\r\nContent-Type: text/plain\r\n\r\n" ++
        String.intercalate "\n" entries) := by
  have h1 : resolve_uri fs guess_type uri =
      .ok (String.intercalate "\n" entries, "text/plain") := by
    simp [resolve_uri, hfs]
  simp [dispatch, handle_request, hp, h1, response_ok_text_plain]

theorem dispatch_existing_dir_200_witness :
    dispatch (fun p => if p = "webroot/" then some (.dir ["a.html", "b.png"]) else none)
      (fun _ => none) "GET / HTTP/1.1\r\nHost: x\r\n\r\n" =
      some ("HTTP/1.1 200 OK\r\nContent-Type: text/plain\r\n\r\n" ++
        String.intercalate "\n" ["a.html", "b.png"]) :=
  dispatch_existing_dir_200
    (fun p => if p = "webroot/" then some (.dir ["a.html", "b.png"]) else none)
    (fun _ => none) "GET / HTTP/1.1\r\nHost: x\r\n\r\n" "/" ["a.html", "b.png"]
    (by decide) (by decide)

/-- C10: a GET for an existing regular file whose media type the lookup does
not know makes `resolve_uri` fail with an error that is neither the
not-supported nor the not-found signal, and the handler sends no response
(the connection is closed by the `finally`). -/
theorem dispatch_unknown_type_unclassified (fs : String → Option FsEntry)
    (guess_type : String → Option String) (data uri content : String)
    (hp : parse_request data = .ok uri)
    (hfs : fs ("webroot" ++ uri) = some (.file content))
    (hmt : guess_type ("webroot" ++ uri) = none) :
    resolve_uri fs guess_type uri = .error .otherError ∧
    PyExc.otherError ≠ PyExc.notImplementedError ∧
    PyExc.otherError ≠ PyExc.nameError ∧
    dispatch fs guess_type data = none := by
  have h1 : resolve_uri fs guess_type uri = .error .otherError := by
    simp [resolve_uri, hfs, hmt]
  exact ⟨h1, by decide, by decide, by simp [dispatch, handle_request, hp, h1]⟩

theorem dispatch_unknown_type_unclassified_witness :
    resolve_uri fsDemo guessDemo "/x.bin" = .error .otherError ∧
    PyExc.otherError ≠ PyExc.notImplementedError ∧
    PyExc.otherError ≠ PyExc.nameError ∧
    dispatch fsDemo guessDemo "GET /x.bin HTTP/1.1\r\n\r\n" = none :=
  dispatch_unknown_type_unclassified fsDemo guessDemo
    "GET /x.bin HTTP/1.1\r\n\r\n" "/x.bin" "xx" (by decide) (by decide) (by decide)

/-- `String.append` acts as list append on the underlying characters. -/
theorem data_append (s u : String) : (s ++ u).data = s.data ++ u.data := rfl

/-- `splitBarAux` passes chars through until its pattern, whose first char is
`\r`, can match; a carriage-return-free block is copied verbatim. -/
theorem splitBarAux_append (a b : List Char) (h : ∀ c ∈ a, c ≠ '\r') :
    splitBarAux (a ++ b) = a ++ splitBarAux b := by
  induction a with
  | nil => rfl
  | cons c cs ih =>
    have hc : c ≠ '\r' := h c (List.mem_cons_self c cs)
    have hcs : ∀ x ∈ cs, x ≠ '\r' := fun x hx => h x (List.mem_cons_of_mem c hx)
    simp only [List.cons_append, splitBarAux]
    rw [if_neg (fun hand => hc hand.1)]
    exact congrArg (List.cons c) (ih hcs)

/-- Splitting on whitespace distributes over a whitespace separator. -/
theorem pyTokensAux_append_space (s : Char) (hs : isPySpace s = true) :
    ∀ (a acc b : List Char),
      pyTokensAux (a ++ s :: b) acc = pyTokensAux a acc ++ pyTokensAux b [] := by
  intro a
  induction a with
  | nil =>
    intro acc b
    simp only [List.nil_append, pyTokensAux, hs]
    cases hacc : acc.isEmpty <;> simp [hacc]
  | cons c cs ih =>
    intro acc b
    simp only [List.cons_append, pyTokensAux]
    cases hc : isPySpace c with
    | false => simp [hc, ih]
    | true => cases hacc : acc.isEmpty <;> simp [hc, hacc, ih]

/-- On a whitespace-free nonempty run the tokenizer yields one token. -/
theorem pyTokensAux_no_space :
    ∀ (l acc : List Char), (∀ c ∈ l, isPySpace c = false) →
      acc.reverse ++ l ≠ [] →
      pyTokensAux l acc = [⟨acc.reverse ++ l⟩] := by
  intro l
  induction l with
  | nil =>
    intro acc _ hne
    cases acc with
    | nil => exact absurd rfl hne
    | cons a as => simp [pyTokensAux]
  | cons c cs ih =>
    intro acc h hne
    have hc : isPySpace c = false := h c (List.mem_cons_self c cs)
    have hcs : ∀ x ∈ cs, isPySpace x = false :=
      fun x hx => h x (List.mem_cons_of_mem c hx)
    simp only [pyTokensAux, hc, Bool.false_eq_true, if_false]
    rw [show acc.reverse ++ c :: cs = (c :: acc).reverse ++ cs by simp]
    exact ih (c :: acc) hcs (by simp)

/-- On a whitespace-free nonempty run with an empty accumulator the
tokenizer yields exactly that run as its one token. -/
theorem pyTokens_single (l : List Char) (h : ∀ c ∈ l, isPySpace c = false)
    (hne : l ≠ []) : pyTokensAux l [] = [⟨l⟩] := by
  simpa using pyTokensAux_no_space l [] h (by simpa using hne)

/-- Every token the tokenizer emits is nonempty and whitespace-free. -/
theorem pyTokensAux_tok_props :
    ∀ (l acc : List Char), (∀ c ∈ acc, isPySpace c = false) →
      ∀ tok ∈ pyTokensAux l acc,
        tok.data ≠ [] ∧ ∀ c ∈ tok.data, isPySpace c = false := by
  intro l
  induction l with
  | nil =>
    intro acc hacc tok htok
    cases acc with
    | nil => simp [pyTokensAux] at htok
    | cons a as =>
      simp [pyTokensAux] at htok
      subst htok
      refine ⟨by simp, ?_⟩
      intro c hc
      have hc' : c ∈ as.reverse ++ [a] := hc
      rcases List.mem_append.mp hc' with h | h
      · exact hacc c (List.mem_cons_of_mem a (List.mem_reverse.mp h))
      · exact hacc c (by simp at h; simp [h])
  | cons c cs ih =>
    intro acc hacc tok htok
    cases hc : isPySpace c with
    | true =>
      cases acc with
      | nil =>
        simp only [pyTokensAux, hc, if_true, List.isEmpty_nil] at htok
        exact ih [] (by simp) tok (by simpa using htok)
      | cons a as =>
        simp only [pyTokensAux, hc, if_true, List.isEmpty_cons] at htok
        rcases List.mem_cons.mp (by simpa using htok) with h1 | h2
        · subst h1
          refine ⟨by simp, ?_⟩
          intro x hx
          have hx' : x ∈ as.reverse ++ [a] := hx
          rcases List.mem_append.mp hx' with h | h
          · exact hacc x (List.mem_cons_of_mem a (List.mem_reverse.mp h))
          · exact hacc x (by simp at h; simp [h])
        · exact ih [] (by simp) tok h2
    | false =>
      simp only [pyTokensAux, hc, Bool.false_eq_true, if_false] at htok
      refine ih (c :: acc) ?_ tok htok
      intro x hx
      rcases List.mem_cons.mp hx with h1 | h1
      · subst h1; exact hc
      · exact hacc x h1

/-- C9: round-trip.  For a well-formed request line (one whose whitespace
tokens are `GET`, a target `t`, `HTTP/1.1`), parsing the raw request built
from it succeeds with `t` whatever the trailing header bytes are, and the
line rebuilt from the parsed fields (`GET`, `t`, `HTTP/1.1`) tokenizes back
to exactly the original line's three tokens. -/
theorem parse_request_roundtrip (line headers t : String)
    (hline : ∀ c ∈ line.data, c ≠ '\r')
    (htok : pySplit line = ["GET", t, "HTTP/1.1"]) :
    parse_request (line ++ "\r\n" ++ headers) = .ok t ∧
    pySplit ("GET" ++ " " ++ t ++ " " ++ "HTTP/1.1") = pySplit line := by
  have hdata : (line ++ "\r\n" ++ headers).data
      = line.data ++ '\r' :: '\n' :: headers.data := by
    simp [data_append, List.append_assoc]
  have hbar : splitBarAux ('\r' :: '\n' :: headers.data)
      = '\r' :: '\n' :: splitBarAux headers.data := by
    rw [splitBarAux, if_neg, splitBarAux, if_neg]
    · rintro ⟨h1, -⟩; exact absurd h1 (by decide)
    · rintro ⟨-, h2⟩
      rw [List.take_succ_cons] at h2
      exact absurd (List.head_eq_of_cons_eq h2) (by decide)
  have h1 : (splitBarFirst (line ++ "\r\n" ++ headers)).data
      = line.data ++ '\r' :: '\n' :: splitBarAux headers.data := by
    show splitBarAux (line ++ "\r\n" ++ headers).data = _
    rw [hdata, splitBarAux_append line.data _ hline, hbar]
  have h2 : pySplit (splitBarFirst (line ++ "\r\n" ++ headers))
      = "GET" :: t :: "HTTP/1.1" :: pyTokensAux (splitBarAux headers.data) [] := by
    show pyTokensAux (splitBarFirst (line ++ "\r\n" ++ headers)).data [] = _
    rw [h1, pyTokensAux_append_space '\r' (by decide) line.data []]
    rw [show pyTokensAux ('\n' :: splitBarAux headers.data) []
          = pyTokensAux (splitBarAux headers.data) [] from by
        simp [pyTokensAux, isPySpace]]
    rw [show pyTokensAux line.data [] = ["GET", t, "HTTP/1.1"] from htok]
    rfl
  have hmem : t ∈ pyTokensAux line.data [] := by
    rw [show pyTokensAux line.data [] = ["GET", t, "HTTP/1.1"] from htok]
    simp
  have hprops := pyTokensAux_tok_props line.data [] (by simp) t hmem
  constructor
  · simp only [parse_request, h2]
    rw [if_neg (fun h => h rfl), if_neg (fun h => h rfl)]
  · have hd : ("GET" ++ " " ++ t ++ " " ++ "HTTP/1.1").data
        = "GET".data ++ ' ' :: (t.data ++ ' ' :: "HTTP/1.1".data) := by
      simp [data_append, List.append_assoc,
        show (" " : String).data = [' '] from rfl]
    show pyTokensAux ("GET" ++ " " ++ t ++ " " ++ "HTTP/1.1").data [] = _
    rw [hd, pyTokensAux_append_space ' ' (by decide) "GET".data [],
      pyTokensAux_append_space ' ' (by decide) t.data [],
      pyTokens_single t.data hprops.2 hprops.1,
      show pyTokensAux "GET".data [] = ["GET"] from by decide,
      show pyTokensAux "HTTP/1.1".data [] = ["HTTP/1.1"] from by decide,
      htok]
    rfl

theorem parse_request_roundtrip_witness :
    parse_request ("GET /index.html HTTP/1.1" ++ "\r\n" ++ "Host: x\r\n\r\n") =
      .ok "/index.html" ∧
    pySplit ("GET" ++ " " ++ "/index.html" ++ " " ++ "HTTP/1.1") =
      pySplit "GET /index.html HTTP/1.1" :=
  parse_request_roundtrip "GET /index.html HTTP/1.1" "Host: x\r\n\r\n"
    "/index.html" (by decide) (by decide)

end HttpServer
